import Mathlib

/-!
Verification of the core utilities of the jaipurtraffic/dash dashboard:
the timestamp normalizer `parseISTTimestamp` and relative-time formatter
`getHoursAgo` from `src/lib/timeUtils.ts`, the grid-dimension constants
from `src/lib/constants.ts`, and the grid-to-coordinate mapper
(`src/lib/coordinateUtils.ts`, modelled from the design document since the
implementation file is absent from the snapshot).

Conventions of the embedding:
* a JavaScript `Date` value is its epoch time in milliseconds, as `Int`;
  an *Invalid Date* (NaN time value) is `Option.none`, so `Date`-valued
  results live in `Option Int`.  Per ECMAScript, `new Date(string)` never
  throws: unrecognised input produces an Invalid Date.  Consequently the
  `try`/`catch` wrapper in `parseISTTimestamp` is unreachable and is not
  represented by a separate branch.
* the runtime local timezone is the fixed civil zone IST (+05:30): the
  repository pins `TIMEZONE = "Asia/Kolkata"` in `src/lib/constants.ts`
  and its test suite (`tests/timeUtils.test.js`) asserts local wall-clock
  fields that only hold in that zone.  The local offset is nevertheless
  kept as an explicit parameter `tz` (minutes east of UTC) of the parse
  semantics, and instantiated with `istTZ = 330` in the theorems.
* timestamp strings are embedded at the granularity the code inspects
  them: their wall-clock fields together with the separator/suffix shape
  (`includes "T"`, `endsWith "Z"`, explicit numeric offset, space
  separator, or unparseable garbage).
-/

/-- A civil (wall-clock) date-time reading: year, month (1-12),
day (1-31), hour, minute, second, millisecond. -/
structure WallClock where
  year : Int
  month : Nat
  day : Nat
  hour : Nat
  minute : Nat
  second : Nat
  ms : Nat
deriving DecidableEq, Repr

/-- Days since the Unix epoch 1970-01-01 of a proleptic-Gregorian civil
date (the standard civil-from-days algorithm used by every mainstream
date library, and by `Date.UTC`/ISO parsing in JavaScript engines). -/
def daysFromCivil (y : Int) (m d : Nat) : Int :=
  let yAdj : Int := y - (if m ≤ 2 then 1 else 0)
  let era : Int := (if 0 ≤ yAdj then yAdj else yAdj - 399) / 400
  let yoe : Int := yAdj - era * 400
  let mp : Int := if 2 < m then (m : Int) - 3 else (m : Int) + 9
  let doy : Int := (153 * mp + 2) / 5 + (d : Int) - 1
  let doe : Int := yoe * 365 + yoe / 4 - yoe / 100 + doy
  era * 146097 + doe - 719468

/-- Epoch milliseconds of a wall-clock reading interpreted as UTC. -/
def civilToEpochMs (w : WallClock) : Int :=
  daysFromCivil w.year w.month w.day * 86400000
    + (w.hour : Int) * 3600000 + (w.minute : Int) * 60000
    + (w.second : Int) * 1000 + (w.ms : Int)

/-- The suffix shape of an ISO-like timestamp string: trailing `Z`,
an explicit numeric UTC offset (in minutes, e.g. `+05:30` is 330),
or no marker at all. -/
inductive TSSuffix where
  | zulu : TSSuffix
  | utcOffset : Int → TSSuffix
  | noMark : TSSuffix
deriving DecidableEq, Repr

/-- A timestamp string at the granularity `parseISTTimestamp` inspects it:
an ISO string containing the `T` separator with wall-clock fields and a
suffix shape, a space-separated date-time without `T`, or an unparseable
string (tagged with whether it happens to end in `Z`, since the code
branches on that independently of parseability). -/
inductive TSString where
  | isoT : WallClock → TSSuffix → TSString
  | spaceSep : WallClock → TSString
  | invalid : Bool → TSString
deriving DecidableEq, Repr

/-- `timestamp.includes("T")`. -/
def includesT : TSString → Bool
  | TSString.isoT _ _ => true
  | TSString.spaceSep _ => false
  | TSString.invalid _ => false

/-- `timestamp.endsWith("Z")`. -/
def endsWithZ : TSString → Bool
  | TSString.isoT _ TSSuffix.zulu => true
  | TSString.isoT _ _ => false
  | TSString.spaceSep _ => false
  | TSString.invalid z => z

/-- `timestamp.slice(0, -1)` on a string ending in `Z`: dropping the
trailing `Z` from an ISO string leaves the same fields with no marker. -/
def stripZ : TSString → TSString
  | TSString.isoT w TSSuffix.zulu => TSString.isoT w TSSuffix.noMark
  | t => t

/-- `timestamp.replace(" ", "T")`: turns the space-separated shape into an
ISO `T` string with no marker; leaves the other shapes unchanged. -/
def replaceSpaceWithT : TSString → TSString
  | TSString.spaceSep w => TSString.isoT w TSSuffix.noMark
  | t => t

/-- ECMAScript `new Date(string)` semantics, with the runtime local zone
`tz` in minutes east of UTC: a date-time with `T` and no offset is local
time; a trailing `Z` means UTC; an explicit numeric offset is honoured;
anything unrecognised is an Invalid Date (`none`).  Never throws. -/
def jsNewDate (tz : Int) : TSString → Option Int
  | TSString.isoT w TSSuffix.noMark => some (civilToEpochMs w - tz * 60000)
  | TSString.isoT w TSSuffix.zulu => some (civilToEpochMs w)
  | TSString.isoT w (TSSuffix.utcOffset off) => some (civilToEpochMs w - off * 60000)
  | TSString.spaceSep _ => none
  | TSString.invalid _ => none

/-- The IST offset the code hard-codes: `5.5 * 60 * 60 * 1000` ms. -/
def istOffsetMs : Int := 19800000

/-- The runtime local zone offset in minutes (+05:30). -/
def istTZ : Int := 330

/-- Embedding of `parseISTTimestamp` from `src/lib/timeUtils.ts`.
`tz` is the runtime local zone (minutes), `now` the current epoch ms
(value of `new Date()`), and the input `none` models a null/undefined/empty
(falsy) `timestamp` argument.  Returns the resulting `Date` value
(`none` = Invalid Date).  The source's `try`/`catch` is unreachable
because the `Date` constructor never throws on string input. -/
def parseISTTimestamp (tz now : Int) : Option TSString → Option Int
  | none => some now
  | some ts =>
    let date : Option Int :=
      if includesT ts then
        if endsWithZ ts then
          jsNewDate tz (stripZ ts)
        else
          jsNewDate tz ts
      else
        jsNewDate tz (replaceSpaceWithT ts)
    if endsWithZ ts || includesT ts then
      if endsWithZ ts then
        date
      else
        date.map (fun t => t - istOffsetMs)
    else
      date

/-- The unique instant whose wall-clock reading in the fixed +05:30 zone
is `w`: epoch ms of `w`-as-UTC shifted back by 330 minutes. -/
def fixedZoneEpochMs (w : WallClock) : Int :=
  civilToEpochMs w - istOffsetMs

/-- Embedding of `getHoursAgo` from `src/lib/timeUtils.ts`.  `now` and
`past` are epoch milliseconds (`new Date()` and the argument).  JavaScript
`Math.floor` of an exact quotient is floor division, which for positive
divisors coincides with `Int` division here; the `%` on line 59 only ever
runs with a non-negative dividend (the function has already returned when
`diffInMinutes < 60`), where JS remainder agrees with `Int.emod`. -/
def getHoursAgo (now past : Int) : String :=
  let diffInMs := now - past
  let diffInMinutes := diffInMs / 60000
  let diffInHours := diffInMs / 3600000
  if diffInMinutes = 0 then "Just now"
  else if diffInMinutes < 60 then
    toString diffInMinutes ++ " minute" ++ (if diffInMinutes = 1 then "" else "s") ++ " ago"
  else if diffInHours < 24 then
    let remainingMinutes := diffInMinutes % 60
    if remainingMinutes = 0 then
      toString diffInHours ++ " hour" ++ (if diffInHours = 1 then "" else "s") ++ " ago"
    else
      toString diffInHours ++ "h " ++ toString remainingMinutes ++ "m ago"
  else
    let diffInDays := diffInHours / 24
    if diffInDays = 1 then "1 day ago"
    else toString diffInDays ++ " days ago"

/-- The `GRID_DIMENSIONS` constant object of `src/lib/constants.ts`
(fields `ROWS`, `COLS`, `ROW_HEIGHT`, and the aspect-ratio field). -/
structure GridDimensionsConst where
  ROWS : Nat
  COLS : Nat
  ROW_HEIGHT : ℚ
  ASPECT_RATIO : ℚ
deriving DecidableEq

/-- `GRID_DIMENSIONS` from `src/lib/constants.ts`:
`{ ROWS: 24, COLS: 16, ROW_HEIGHT: 53.3, ASPECT_RATIO: 12750 / 10920 }`. -/
def GRID_DIMENSIONS : GridDimensionsConst :=
  ⟨24, 16, 53.3, 12750 / 10920⟩

/-- A geographic boundary rectangle given by its northwest and southeast
corners, as in the `JAIPUR_BOUNDARIES` constant of the coordinate
mapper.  Coordinates are exact rationals (the source's float literals
are decimal and the claims' tolerances are far above float error). -/
structure GeoBoundary where
  NORTH_WEST_LAT : ℚ
  NORTH_WEST_LNG : ℚ
  SOUTH_EAST_LAT : ℚ
  SOUTH_EAST_LNG : ℚ
deriving DecidableEq

/-- `JAIPUR_BOUNDARIES`: NW = (26.99, 75.65), SE = (26.78, 75.92), the
values asserted by `tests/coordinateUtils.test.ts` and the design
document's literal scenario. -/
def JAIPUR_BOUNDARIES : GeoBoundary :=
  ⟨26.99, 75.65, 26.78, 75.92⟩

/-- A grid dimension configuration (columns, rows) for the mapper; the
design document directs that the mapper be modelled as parameterized by
an explicit immutable configuration. -/
structure GridConfig where
  cols : Nat
  rows : Nat
deriving DecidableEq

/-- A (latitude, longitude) pair, the mapper's output. -/
structure GeoCoordinate where
  lat : ℚ
  lng : ℚ
deriving DecidableEq

/-- Modelled from the spec: the latitude step of the cell-center mapper
in `src/lib/coordinateUtils.ts`, whose implementation file is absent from
the snapshot (only its test imports it).  Spec: "Step size along
latitude = (northwest.latitude − southeast.latitude) / rows". -/
def latStep (b : GeoBoundary) (g : GridConfig) : ℚ :=
  (b.NORTH_WEST_LAT - b.SOUTH_EAST_LAT) / g.rows

/-- Modelled from the spec: the longitude step of the cell-center mapper
in `src/lib/coordinateUtils.ts` (implementation file absent).  Spec:
"Step size along longitude = (southeast.longitude − northwest.longitude)
/ columns". -/
def lngStep (b : GeoBoundary) (g : GridConfig) : ℚ :=
  (b.SOUTH_EAST_LNG - b.NORTH_WEST_LNG) / g.cols

/-- Modelled from the spec: `getCellCenterCoordinates` of
`src/lib/coordinateUtils.ts` (implementation file absent from the
snapshot).  Spec: "Cell-center offset (not cell corner): latitude =
northwest.latitude − latStep × (y + 0.5); longitude =
northwest.longitude + lngStep × (x + 0.5)". -/
def getCellCenterCoordinates (b : GeoBoundary) (g : GridConfig) (x y : Nat) : GeoCoordinate :=
  ⟨b.NORTH_WEST_LAT - latStep b g * ((y : ℚ) + 1/2),
   b.NORTH_WEST_LNG + lngStep b g * ((x : ℚ) + 1/2)⟩

/-- C1: a timestamp containing the `T` separator and ending in `Z` has
its trailing `Z` stripped and its wall-clock fields read in the fixed
+05:30 zone (no UTC-to-local conversion): the result is exactly the
instant whose fixed-zone reading is those fields; in particular
`parseISTTimestamp "2026-01-02T09:10:16.000Z"` denotes the fixed-zone
wall-clock reading 09:10:16 on 2026-01-02, not 03:40:16. -/
theorem C1_zulu_read_as_fixed_zone :
    (∀ (w : WallClock) (now : Int),
        parseISTTimestamp istTZ now (some (TSString.isoT w TSSuffix.zulu)) =
          some (fixedZoneEpochMs w))
    ∧ parseISTTimestamp istTZ 0 (some (TSString.isoT ⟨2026, 1, 2, 9, 10, 16, 0⟩ TSSuffix.zulu)) =
        some (fixedZoneEpochMs ⟨2026, 1, 2, 9, 10, 16, 0⟩)
    ∧ parseISTTimestamp istTZ 0 (some (TSString.isoT ⟨2026, 1, 2, 9, 10, 16, 0⟩ TSSuffix.zulu)) ≠
        some (fixedZoneEpochMs ⟨2026, 1, 2, 3, 40, 16, 0⟩) := by
  refine ⟨fun w now => ?_, by decide, by decide⟩
  have h : parseISTTimestamp istTZ now (some (TSString.isoT w TSSuffix.zulu)) =
      some (civilToEpochMs w - istTZ * 60000) := rfl
  rw [h]
  simp only [fixedZoneEpochMs, istTZ, istOffsetMs, Option.some.injEq]
  omega

/-- C2 counterexample: for the bare ISO string 2026-01-02T15:30:00.000
(`T`, no `Z`, no offset), the result is NOT the UTC reading of the
fields shifted back by 5.5 hours, contrary to the claim. -/
theorem C2_counterexample_not_utc_shift :
    parseISTTimestamp istTZ 0 (some (TSString.isoT ⟨2026, 1, 2, 15, 30, 0, 0⟩ TSSuffix.noMark)) ≠
      some (civilToEpochMs ⟨2026, 1, 2, 15, 30, 0, 0⟩ - istOffsetMs) := by
  decide

/-- C2 (amended): a timestamp with the `T` separator, no trailing `Z`
and no explicit offset is parsed by the runtime as fixed-zone (+05:30)
local wall-clock time, and the code then subtracts a further 5.5 hours:
the result is 5.5 hours earlier than the instant whose fixed-zone
reading is the string's fields (hence 11 hours earlier than the UTC
reading of those fields), not the claimed UTC-reading-minus-5.5h. -/
theorem C2_no_marker_double_shift :
    ∀ (w : WallClock) (now : Int),
      parseISTTimestamp istTZ now (some (TSString.isoT w TSSuffix.noMark)) =
        some (fixedZoneEpochMs w - istOffsetMs) := by
  intro w now
  have h : parseISTTimestamp istTZ now (some (TSString.isoT w TSSuffix.noMark)) =
      some (civilToEpochMs w - istTZ * 60000 - istOffsetMs) := rfl
  rw [h]
  simp only [fixedZoneEpochMs, istTZ, istOffsetMs, Option.some.injEq]
  omega

/-- C3: evaluation of `parseISTTimestamp` at a null input and at an
unparseable string.  Null (falsy) input yields the current instant, as
claimed; but an unparseable string yields an *Invalid Date* (`none`),
not the current instant, and the warning branch never runs because the
ECMAScript `Date` constructor does not throw — the `catch` fallback the
claim describes is dead code. -/
theorem C3_unparseable_yields_invalid_date :
    (∀ now : Int, parseISTTimestamp istTZ now none = some now)
    ∧ (∀ now : Int, parseISTTimestamp istTZ now (some (TSString.invalid false)) = none)
    ∧ (∀ now : Int, parseISTTimestamp istTZ now (some (TSString.invalid true)) = none) :=
  ⟨fun _ => rfl, fun _ => rfl, fun _ => rfl⟩

/-- C4: the same wall-clock fields written with and without the trailing
`Z` marker parse to two distinct valid instants exactly 5.5 hours
(19 800 000 ms) apart — the asymmetric branching between the two shapes
is preserved. -/
theorem C4_zulu_and_bare_instants_5_5h_apart :
    ∀ (w : WallClock) (now : Int), ∃ tZ tB : Int,
      parseISTTimestamp istTZ now (some (TSString.isoT w TSSuffix.zulu)) = some tZ
      ∧ parseISTTimestamp istTZ now (some (TSString.isoT w TSSuffix.noMark)) = some tB
      ∧ tZ - tB = 19800000 ∧ tZ ≠ tB := by
  intro w now
  exact ⟨civilToEpochMs w - istTZ * 60000, civilToEpochMs w - istTZ * 60000 - istOffsetMs,
    rfl, rfl, by simp only [istOffsetMs]; omega, by simp only [istOffsetMs]; omega⟩

/-- C9: a timestamp with the `T` separator and an explicit UTC offset
(e.g. `+05:30`, 330 minutes) does not end in `Z`, so it falls into the
no-marker branch and still gets the 5.5-hour subtraction: the result is
exactly 5.5 hours earlier than the absolute instant the offset-annotated
string itself denotes (`civilToEpochMs w - off * 60000`). -/
theorem C9_offset_string_still_shifted :
    ∀ (w : WallClock) (off now : Int),
      parseISTTimestamp istTZ now (some (TSString.isoT w (TSSuffix.utcOffset off))) =
        some ((civilToEpochMs w - off * 60000) - istOffsetMs) := by
  intro w off now
  rfl

/-- Reassociation helper: fold a three-piece suffix into one literal. -/
theorem append3_fold (t a b c d : String) (h : a ++ b ++ c = d) :
    t ++ a ++ b ++ c = t ++ d := by
  rw [String.append_assoc, String.append_assoc, ← String.append_assoc a b c, h]

/-- C5: for a non-negative difference, `getHoursAgo` returns exactly
"Just now" below one whole minute; "{m} minute(s) ago" (singular iff
m = 1) for 1 ≤ m < 60; "{h} hour(s) ago" for 60 ≤ m < 1440 with m an
exact multiple of 60; "{h}h {m mod 60}m ago" for 60 ≤ m < 1440
otherwise; and "{floor(h/24)} day(s) ago" for m ≥ 1440, with no finer
breakdown in the day range. -/
theorem C5_relative_phrase_cases :
    ∀ now past : Int, 0 ≤ now - past →
      (((now - past) / 60000 = 0 → getHoursAgo now past = "Just now")
      ∧ (1 ≤ (now - past) / 60000 → (now - past) / 60000 < 60 →
          getHoursAgo now past =
            toString ((now - past) / 60000) ++ " minute" ++
              (if (now - past) / 60000 = 1 then "" else "s") ++ " ago")
      ∧ (60 ≤ (now - past) / 60000 → (now - past) / 60000 < 1440 →
          (now - past) / 60000 % 60 = 0 →
          getHoursAgo now past =
            toString ((now - past) / 3600000) ++ " hour" ++
              (if (now - past) / 3600000 = 1 then "" else "s") ++ " ago")
      ∧ (60 ≤ (now - past) / 60000 → (now - past) / 60000 < 1440 →
          (now - past) / 60000 % 60 ≠ 0 →
          getHoursAgo now past =
            toString ((now - past) / 3600000) ++ "h " ++
              toString ((now - past) / 60000 % 60) ++ "m ago")
      ∧ (1440 ≤ (now - past) / 60000 →
          getHoursAgo now past =
            toString ((now - past) / 3600000 / 24) ++ " day" ++
              (if (now - past) / 3600000 / 24 = 1 then "" else "s") ++ " ago")) := by
  intro now past _
  refine ⟨fun h0 => ?_, fun h1 h2 => ?_, fun h1 h2 h3 => ?_, fun h1 h2 h3 => ?_, fun h1 => ?_⟩
  · simp [getHoursAgo, h0]
  · have hne : ¬((now - past) / 60000 = 0) := by omega
    simp [getHoursAgo, hne, h2]
  · have hne : ¬((now - past) / 60000 = 0) := by omega
    have hge : ¬((now - past) / 60000 < 60) := by omega
    have hlt : (now - past) / 3600000 < 24 := by omega
    simp [getHoursAgo, hne, hge, hlt, h3]
  · have hne : ¬((now - past) / 60000 = 0) := by omega
    have hge : ¬((now - past) / 60000 < 60) := by omega
    have hlt : (now - past) / 3600000 < 24 := by omega
    simp [getHoursAgo, hne, hge, hlt, h3]
  · have hne : ¬((now - past) / 60000 = 0) := by omega
    have hge : ¬((now - past) / 60000 < 60) := by omega
    have hlt : ¬((now - past) / 3600000 < 24) := by omega
    by_cases hd : (now - past) / 3600000 / 24 = 1
    · simp [getHoursAgo, hne, hge, hlt, hd]
      decide
    · simp [getHoursAgo, hne, hge, hlt, hd]
      exact (append3_fold (toString ((now - past) / 3600000 / 24)) " day" "s" " ago"
        " days ago" (by decide)).symm

/-- Witness for C5 at now = 4 500 000 ms, past = 0 (a 75-minute
difference, the compact-form branch). -/
theorem C5_witness :
    0 ≤ (4500000 : Int) - 0 ∧ getHoursAgo 4500000 0 = "1h 15m ago" := by
  refine ⟨by decide, ?_⟩
  have h := (C5_relative_phrase_cases 4500000 0 (by decide)).2.2.2.1
    (by decide) (by decide) (by decide)
  exact h.trans (by decide)

/-- C10: for an input strictly in the future (negative difference),
`getHoursAgo` returns normally with the string "{m} minutes ago" where
m = floor((now − past)/60000) is negative — never "Just now" and never
clamped. -/
theorem C10_future_negative_minutes :
    ∀ now past : Int, now < past →
      getHoursAgo now past = toString ((now - past) / 60000) ++ " minutes ago"
      ∧ (now - past) / 60000 < 0 := by
  intro now past h
  have hm : (now - past) / 60000 < 0 := by omega
  have hne : ¬((now - past) / 60000 = 0) := by omega
  have hlt : (now - past) / 60000 < 60 := by omega
  have hone : ¬((now - past) / 60000 = 1) := by omega
  refine ⟨?_, hm⟩
  have hstep : getHoursAgo now past =
      toString ((now - past) / 60000) ++ " minute" ++ "s" ++ " ago" := by
    simp [getHoursAgo, hne, hlt, hone]
  exact hstep.trans
    (append3_fold (toString ((now - past) / 60000)) " minute" "s" " ago" " minutes ago"
      (by decide))

/-- Witness for C10 at now = 0, past = 90 000 ms (1.5 minutes in the
future): the result is "-2 minutes ago". -/
theorem C10_witness :
    (0 : Int) < 90000 ∧ getHoursAgo 0 90000 = "-2 minutes ago" ∧ ((0 : Int) - 90000) / 60000 < 0 := by
  have h := C10_future_negative_minutes 0 90000 (by decide)
  exact ⟨by decide, h.1.trans (by decide), h.2⟩

/-- C6 counterexample: with the Jaipur boundary and a 15×21 grid, the
spec's step-size and center-offset formulas place cellCenter(14, 20) at
latitude exactly 26.785, which is NOT within 0.0001 degrees of the
claimed 26.787431 (and its longitude 75.911 is not within 0.0001 of
75.912645 either). -/
theorem C6_counterexample_far_corner :
    ¬ (|(getCellCenterCoordinates JAIPUR_BOUNDARIES ⟨15, 21⟩ 14 20).lat - 26.787431| ≤ 1 / 10000
       ∧ |(getCellCenterCoordinates JAIPUR_BOUNDARIES ⟨15, 21⟩ 14 20).lng - 75.912645| ≤ 1 / 10000) := by
  have hlat : (getCellCenterCoordinates JAIPUR_BOUNDARIES ⟨15, 21⟩ 14 20).lat = 26.785 := by
    norm_num [getCellCenterCoordinates, latStep, JAIPUR_BOUNDARIES]
  rintro ⟨h1, -⟩
  rw [hlat] at h1
  rw [abs_of_nonpos (by norm_num)] at h1
  norm_num at h1

/-- C6 (amended): with the Jaipur boundary and a 15×21 grid, the spec's
formulas give cellCenter(0, 0) = (26.985, 75.659), within 0.0001 degrees
of (26.985059, 75.659073) as claimed; but cellCenter(14, 20) =
(26.785, 75.911), which is only within 0.0025 degrees — not 0.0001 — of
(26.787431, 75.912645). -/
theorem C6_cell_center_literals :
    |(getCellCenterCoordinates JAIPUR_BOUNDARIES ⟨15, 21⟩ 0 0).lat - 26.985059| ≤ 1 / 10000
    ∧ |(getCellCenterCoordinates JAIPUR_BOUNDARIES ⟨15, 21⟩ 0 0).lng - 75.659073| ≤ 1 / 10000
    ∧ |(getCellCenterCoordinates JAIPUR_BOUNDARIES ⟨15, 21⟩ 14 20).lat - 26.787431| ≤ 25 / 10000
    ∧ |(getCellCenterCoordinates JAIPUR_BOUNDARIES ⟨15, 21⟩ 14 20).lng - 75.912645| ≤ 25 / 10000 := by
  have h00lat : (getCellCenterCoordinates JAIPUR_BOUNDARIES ⟨15, 21⟩ 0 0).lat = 26.985 := by
    norm_num [getCellCenterCoordinates, latStep, JAIPUR_BOUNDARIES]
  have h00lng : (getCellCenterCoordinates JAIPUR_BOUNDARIES ⟨15, 21⟩ 0 0).lng = 75.659 := by
    norm_num [getCellCenterCoordinates, lngStep, JAIPUR_BOUNDARIES]
  have h14lat : (getCellCenterCoordinates JAIPUR_BOUNDARIES ⟨15, 21⟩ 14 20).lat = 26.785 := by
    norm_num [getCellCenterCoordinates, latStep, JAIPUR_BOUNDARIES]
  have h14lng : (getCellCenterCoordinates JAIPUR_BOUNDARIES ⟨15, 21⟩ 14 20).lng = 75.911 := by
    norm_num [getCellCenterCoordinates, lngStep, JAIPUR_BOUNDARIES]
  refine ⟨?_, ?_, ?_, ?_⟩
  · rw [h00lat, abs_of_nonpos (by norm_num)]; norm_num
  · rw [h00lng, abs_of_nonpos (by norm_num)]; norm_num
  · rw [h14lat, abs_of_nonpos (by norm_num)]; norm_num
  · rw [h14lng, abs_of_nonpos (by norm_num)]; norm_num

/-- C7: for any boundary and grid with positive step sizes, the
cell-center latitude strictly decreases as y increases and the
longitude strictly increases as x increases, over in-range indices. -/
theorem C7_strict_monotonicity (b : GeoBoundary) (g : GridConfig)
    (hlat : 0 < latStep b g) (hlng : 0 < lngStep b g) :
    (∀ x y1 y2 : Nat, x < g.cols → y1 < g.rows → y2 < g.rows → y1 < y2 →
        (getCellCenterCoordinates b g x y2).lat < (getCellCenterCoordinates b g x y1).lat)
    ∧ (∀ x1 x2 y : Nat, x1 < g.cols → x2 < g.cols → y < g.rows → x1 < x2 →
        (getCellCenterCoordinates b g x1 y).lng < (getCellCenterCoordinates b g x2 y).lng) := by
  constructor
  · intro x y1 y2 _ _ _ hy
    have hq : ((y1 : ℚ) + 1 / 2) < ((y2 : ℚ) + 1 / 2) := by
      have : (y1 : ℚ) < (y2 : ℚ) := by exact_mod_cast hy
      linarith
    have := mul_lt_mul_of_pos_left hq hlat
    simp only [getCellCenterCoordinates]
    linarith
  · intro x1 x2 y _ _ _ hx
    have hq : ((x1 : ℚ) + 1 / 2) < ((x2 : ℚ) + 1 / 2) := by
      have : (x1 : ℚ) < (x2 : ℚ) := by exact_mod_cast hx
      linarith
    have := mul_lt_mul_of_pos_left hq hlng
    simp only [getCellCenterCoordinates]
    linarith

/-- Witness for C7 at the Jaipur boundary with the 15×21 grid. -/
theorem C7_witness :
    0 < latStep JAIPUR_BOUNDARIES ⟨15, 21⟩ ∧ 0 < lngStep JAIPUR_BOUNDARIES ⟨15, 21⟩
    ∧ (getCellCenterCoordinates JAIPUR_BOUNDARIES ⟨15, 21⟩ 0 1).lat <
        (getCellCenterCoordinates JAIPUR_BOUNDARIES ⟨15, 21⟩ 0 0).lat
    ∧ (getCellCenterCoordinates JAIPUR_BOUNDARIES ⟨15, 21⟩ 0 0).lng <
        (getCellCenterCoordinates JAIPUR_BOUNDARIES ⟨15, 21⟩ 1 0).lng := by
  have hlat : 0 < latStep JAIPUR_BOUNDARIES ⟨15, 21⟩ := by
    norm_num [latStep, JAIPUR_BOUNDARIES]
  have hlng : 0 < lngStep JAIPUR_BOUNDARIES ⟨15, 21⟩ := by
    norm_num [lngStep, JAIPUR_BOUNDARIES]
  have h := C7_strict_monotonicity JAIPUR_BOUNDARIES ⟨15, 21⟩ hlat hlng
  exact ⟨hlat, hlng,
    h.1 0 0 1 (by decide) (by decide) (by decide) (by decide),
    h.2 0 1 0 (by decide) (by decide) (by decide) (by decide)⟩

/-- C8: the `GRID_DIMENSIONS` constant of `src/lib/constants.ts`
actually holds ROWS = 24 and COLS = 16, not the 21 rows and 15 columns
that the claim (and the repository's own test
`tests/coordinateUtils.test.ts`) state. -/
theorem C8_grid_dimensions_value :
    GRID_DIMENSIONS.ROWS = 24 ∧ GRID_DIMENSIONS.COLS = 16
    ∧ ¬ (GRID_DIMENSIONS.COLS = 15 ∧ GRID_DIMENSIONS.ROWS = 21) :=
  ⟨rfl, rfl, by decide⟩
